import Mathlib

/-!
Verification development for the forward-summarizer-bot repository.

The Python sources are shallowly embedded:
- strings are Lean `String` (the logical model: a list of characters, as in
  Python, where `len` and slicing count characters);
- confidence scores are rationals (the program only ever compares them with
  the exact constant 0.5 and passes them through unchanged);
- the external LLM API is an oracle `Nat → Attempt` giving, for each attempt
  index, either the raw response text or one of the failure modes the code
  distinguishes (`anthropic.RateLimitError`, `anthropic.APIError`, any other
  exception);
- the retry wrapper is instrumented to also return the number of API attempts
  made and the list of back-off sleep durations, so that call-count and
  sleep-count properties are statable;
- the PostgreSQL tables behind `database.py` are a record of lists; the SQL
  statements the code issues are embedded as the corresponding list
  operations.
-/

namespace ForwardBot

/-- Python `pat`-is-a-prefix-of test on character lists
(`str.startswith`, character by character). -/
def starts_chars : List Char → List Char → Bool
  | [], _ => true
  | _ :: _, [] => false
  | p :: ps, s :: ss => p == s && starts_chars ps ss

/-- Python `s.startswith(pat)`. -/
def pyStartsWith (s pat : String) : Bool :=
  starts_chars pat.toList s.toList

/-- Python `s.endswith(pat)`. -/
def pyEndsWith (s pat : String) : Bool :=
  starts_chars pat.toList.reverse s.toList.reverse

/-- Substring test on character lists: does `need` occur contiguously in the
second list? -/
def substr_chars (need : List Char) : List Char → Bool
  | [] => starts_chars need []
  | c :: t => starts_chars need (c :: t) || substr_chars need t

/-- Python `need in hay` on strings (contiguous substring; the empty string
occurs in everything, as in Python). -/
def pySubstr (need hay : String) : Bool :=
  substr_chars need.toList hay.toList

/-- Python `str.lower()`. Modelled by ASCII lowercasing (`Char.toLower`
per character); every category name this system compares is ASCII. -/
def pyLower (s : String) : String :=
  String.mk (s.toList.map Char.toLower)

/-- Python `len(s)` (a character count, as in Python). -/
def pyLen (s : String) : Nat := s.toList.length

/-- Python slice `s[:n]`. -/
def pyTake (s : String) (n : Nat) : String := String.mk (s.toList.take n)

/-- Python slice `s[n:]`. -/
def pyDrop (s : String) (n : Nat) : String := String.mk (s.toList.drop n)

/-- Split a character list at every occurrence of `c`, keeping empty
fragments — Python `s.split(c)` for a one-character separator. -/
def splitOnChar (c : Char) : List Char → List (List Char)
  | [] => [[]]
  | d :: ds =>
    match splitOnChar c ds with
    | [] => [[]]
    | g :: gs => if d == c then [] :: g :: gs else (d :: g) :: gs

/-- Python `s.split("\n")`. -/
def pySplitLines (s : String) : List String :=
  (splitOnChar '\n' s.toList).map String.mk

/-- Join fragments back with newlines (inverse of `pySplitLines`). -/
def join_lines : List String → String
  | [] => ""
  | [x] => x
  | x :: xs => x ++ "\n" ++ join_lines xs

/-- Python whitespace class `\s` (also the characters `str.strip` removes). -/
def pyIsSpace (c : Char) : Bool :=
  c == ' ' || c == '\t' || c == '\n' || c == '\r' || c == '\x0b' || c == '\x0c'

/-- Python `str.strip()`: drop whitespace from both ends. -/
def pyStrip (s : String) : String :=
  String.mk (((s.toList.dropWhile pyIsSpace).reverse.dropWhile pyIsSpace).reverse)

/-- Value of a digit string read in base 10. -/
def digits_val (l : List Char) : Nat :=
  l.foldl (fun a c => a * 10 + (c.toNat - 48)) 0

/-- Python `float()` on plain decimal literals: optional sign, digits,
optional fractional part. Other forms Python would accept (exponents,
`inf`, `nan`) are treated as unparseable here; the confidence strings this
program parses are plain decimals such as `0.85`. -/
def pyFloat (s : String) : Option ℚ :=
  let cs := s.toList
  let signed : Int × List Char :=
    match cs with
    | '-' :: t => (-1, t)
    | '+' :: t => (1, t)
    | _ => (1, cs)
  let sign := signed.1
  let body := signed.2
  let intPart := body.takeWhile (fun c => c != '.')
  let rest := body.dropWhile (fun c => c != '.')
  match rest with
  | [] =>
    if !intPart.isEmpty && intPart.all Char.isDigit then
      some (mkRat (sign * digits_val intPart) 1)
    else none
  | _ :: frac =>
    if (!intPart.isEmpty || !frac.isEmpty) && intPart.all Char.isDigit
        && frac.all Char.isDigit then
      some (mkRat (sign * (digits_val intPart * 10 ^ frac.length
        + digits_val frac)) (10 ^ frac.length))
    else none

/-- Outcome of one `client.messages.create` attempt, as distinguished by the
retry wrappers in classifier.py and summarizer.py: a successful response
text, `anthropic.RateLimitError`, `anthropic.APIError`, or any other
exception. -/
inductive Attempt where
  | ok (text : String)
  | rateLimited
  | apiError
  | otherError
deriving DecidableEq

/-- True when the attempt raised instead of returning a response. -/
def isFail : Attempt → Bool
  | Attempt.ok _ => false
  | _ => true

/-- The retry loop of `_call_claude_with_retry` (classifier.py lines 165-209,
summarizer.py lines 107-148). `attempt` is the current loop index, `fuel`
the remaining iterations (`max_retries - attempt`). Returns the result
together with the number of API attempts made and the list of back-off
sleep durations in order. On success the handler (the per-operation
response processing) is applied; a rate-limited attempt sleeps
`2 ^ attempt + 1` seconds and retries; any other failure sleeps
`2 ^ attempt` and retries unless this was the last attempt, in which case
the loop breaks to the fallback without sleeping. -/
def retry_loop {α : Type} (outcomes : Nat → Attempt) (handle : String → α)
    (fallback : α) (max_retries : Nat) : Nat → Nat → α × Nat × List Nat
  | _, 0 => (fallback, 0, [])
  | attempt, fuel + 1 =>
    match outcomes attempt with
    | Attempt.ok t => (handle t, 1, [])
    | Attempt.rateLimited =>
      let r := retry_loop outcomes handle fallback max_retries (attempt + 1) fuel
      (r.1, r.2.1 + 1, (2 ^ attempt + 1) :: r.2.2)
    | Attempt.apiError =>
      if attempt < max_retries - 1 then
        let r := retry_loop outcomes handle fallback max_retries (attempt + 1) fuel
        (r.1, r.2.1 + 1, (2 ^ attempt) :: r.2.2)
      else (fallback, 1, [])
    | Attempt.otherError =>
      if attempt < max_retries - 1 then
        let r := retry_loop outcomes handle fallback max_retries (attempt + 1) fuel
        (r.1, r.2.1 + 1, (2 ^ attempt) :: r.2.2)
      else (fallback, 1, [])

/-- `_call_claude_with_retry`: run the bounded retry loop from attempt 0;
if every attempt fails, the caller-specific fallback is returned. The
branch the Python code takes on `operation_name` is embedded by
instantiating `handle` and `fallback` per operation. -/
def call_claude_with_retry {α : Type} (outcomes : Nat → Attempt)
    (handle : String → α) (fallback : α) (max_retries : Nat) :
    α × Nat × List Nat :=
  retry_loop outcomes handle fallback max_retries 0 max_retries

/-- `_parse_claude_response`, inner loop (classifier.py lines 113-122): scan
the stripped lines; a line starting with the label `Категория:` sets the
category to the stripped text after the label colon (a later such line
overwrites an earlier one); a line starting with `Уверенность:` sets the
confidence to the parsed decimal after the colon, or to 0.5 when the text
does not parse as a float. -/
def parse_lines : List String → Option String → ℚ → Option String × ℚ
  | [], category, confidence => (category, confidence)
  | l :: ls, category, confidence =>
    let line := pyStrip l
    if pyStartsWith line "Категория:" then
      parse_lines ls (some (pyStrip (pyDrop line (pyLen "Категория:")))) confidence
    else if pyStartsWith line "Уверенность:" then
      let confidence_str := pyStrip (pyDrop line (pyLen "Уверенность:"))
      parse_lines ls category
        (match pyFloat confidence_str with
         | some v => v
         | none => mkRat 1 2)
    else parse_lines ls category confidence

/-- `_parse_claude_response` (classifier.py lines 106-131): split the
stripped response on newlines, scan for the label lines, and default a
missing (or empty: Python `if not category`) category to `"general"`.
The initial confidence is 0.5. -/
def parse_claude_response (response_text : String) : String × ℚ :=
  let r := parse_lines (pySplitLines (pyStrip response_text)) none (mkRat 1 2)
  match r.1 with
  | none => ("general", r.2)
  | some c => if c = "" then ("general", r.2) else (c, r.2)

/-- The `operation_name == "classification"` success branch of
`_call_claude_with_retry` (classifier.py lines 177-182): parse the
response, then rewrite a result whose confidence is below 0.5 to the
sentinel category `"review"`, keeping the parsed confidence. -/
def classification_handle (response_text : String) : String × ℚ :=
  let pc := parse_claude_response response_text
  if pc.2 < mkRat 1 2 then ("review", pc.2) else pc

/-- `_simple_category_match` (classifier.py lines 40-46): first stored
category (in the given list order) whose lowercase form occurs in the
lowercased text. -/
def simple_category_match (text : String) (categories : List String) :
    Option String :=
  let text_lower := pyLower text
  categories.find? (fun category => pySubstr (pyLower category) text_lower)

/-- The response handling of `_check_duplicate_category` (classifier.py
lines 156-161): strip the model answer; if it case-insensitively matches an
existing category, return the answer as written, else return the candidate. -/
def parse_duplicate_response (existing : List String) (new_category : String)
    (response_text : String) : String :=
  let result_category := pyStrip response_text
  if (existing.map pyLower).contains (pyLower result_category) then
    result_category
  else new_category

/-- `_check_duplicate_category` (classifier.py lines 133-163): skipped (the
candidate passes through, no API attempt) when the existing list is empty,
otherwise a Gateway call through the retry wrapper whose exhaustion
fallback for non-classification operations is the string `"general"`
(classifier.py line 209). Returns the category and the number of API
attempts made. -/
def check_duplicate_category (new_category : String) (existing : List String)
    (outcomes : Nat → Attempt) : String × Nat :=
  if existing.isEmpty then (new_category, 0)
  else
    let r := call_claude_with_retry outcomes
      (parse_duplicate_response existing new_category) "general" 3
    (r.1, r.2.1)

/-- The LLM path of `classify_message` (classifier.py lines 31-38): Gateway
classification through the retry wrapper, then the duplicate-resolution
step when the resulting category is not (case-insensitively) already
stored. Returns the final category and confidence with the total number of
API attempts made. -/
def classify_with_llm (existing : List String) (cls dup : Nat → Attempt) :
    String × ℚ × Nat :=
  let r := call_claude_with_retry cls classification_handle ("general", mkRat 1 2) 3
  let category := r.1.1
  let confidence := r.1.2
  let n1 := r.2.1
  if (existing.map pyLower).contains (pyLower category) then
    (category, confidence, n1)
  else
    let d := check_duplicate_category category existing dup
    (d.1, confidence, n1 + d.2)

/-- `classify_message` (classifier.py lines 17-38) over the category list the
store returns (alphabetical iteration order) and the two Gateway oracles
(`cls` for the classification call, `dup` for the duplicate check). The
guard `if category_match:` (classifier.py line 27) is Python truthiness:
both `None` and the falsy empty string fall through to the LLM path, so a
simple match on the empty-string category does not short-circuit. The
prompt texts sent to the model do not influence the control flow and are
abstracted by the oracles. -/
def classify_message (existing : List String) (cls dup : Nat → Attempt)
    (text : String) : String × ℚ × Nat :=
  match simple_category_match text existing with
  | some category =>
    if category = "" then classify_with_llm existing cls dup
    else (category, 1, 0)
  | none => classify_with_llm existing cls dup

/-- One row of the `messages` table (database.py / init_db.py schema). -/
structure MessageRow where
  id : Nat
  source_url : Option String
  telegram_link : String
  summary : String
  category : String
deriving DecidableEq

/-- The persistent store: the `categories` table (a list of names in
insertion order), the `messages` table, and the next serial message id. -/
structure DBState where
  categories : List String
  messages : List MessageRow
  nextId : Nat
deriving DecidableEq

/-- `Database.category_exists` (database.py lines 40-47):
`SELECT 1 FROM categories WHERE LOWER(name) = LOWER(%s)`. -/
def category_exists (db : DBState) (category_name : String) : Bool :=
  db.categories.any (fun c => pyLower c == pyLower category_name)

/-- `Database.add_category` (database.py lines 49-78): return `(db, false)`
without inserting when a case-insensitive match exists (checked twice: via
`category_exists` and again over the listed categories; the similar-name
substring scan only logs a warning and never blocks), else append the new
name (the conflict-safe `INSERT ... ON CONFLICT (name) DO NOTHING`) and
return `(db, true)` with the row committed. -/
def add_category (db : DBState) (category_name : String) : DBState × Bool :=
  if category_exists db category_name then (db, false)
  else if db.categories.any (fun e => pyLower e == pyLower category_name) then
    (db, false)
  else
    ({ db with categories := db.categories ++ [category_name] }, true)

/-- `Database._message_exists` (database.py lines 104-115):
`SELECT 1 FROM messages WHERE telegram_link = %s OR summary = %s LIMIT 1`. -/
def message_exists (db : DBState) (telegram_link summary : String) : Bool :=
  db.messages.any (fun m => m.telegram_link == telegram_link
    || m.summary == summary)

/-- `Database.save_message` (database.py lines 80-102): first ensure the
category exists (this commits inside `add_category`), then return `none`
without inserting when a message with the same link or the same summary is
already stored, else insert the new row and return its generated id. -/
def save_message (db : DBState) (source_url : Option String)
    (telegram_link summary category : String) : DBState × Option Nat :=
  let db1 := (add_category db category).1
  if message_exists db1 telegram_link summary then (db1, none)
  else
    let row : MessageRow :=
      ⟨db1.nextId, source_url, telegram_link, summary, category⟩
    ({ db1 with messages := db1.messages ++ [row], nextId := db1.nextId + 1 },
      some db1.nextId)

/-- The point inside `save_message` at which a `StorageUnavailable`
(connection or query failure) strikes: during the category insertion,
during the duplicate `SELECT`, or during the final message `INSERT`. -/
inductive SaveStep where
  | categoryInsert
  | dupCheck
  | messageInsert
deriving DecidableEq

/-- The store state already committed when `save_message` fails with
`StorageUnavailable` at the given step. `add_category` commits its own
insert (database.py line 76) before the duplicate check and the message
insert run, so a failure at either later step leaves that commit behind;
the message `INSERT` itself only commits at database.py line 100, after
which the call can no longer fail. -/
def save_message_committed (db : DBState) (category : String) :
    SaveStep → DBState
  | SaveStep.categoryInsert => db
  | SaveStep.dupCheck => (add_category db category).1
  | SaveStep.messageInsert => (add_category db category).1

/-- The case-insensitive uniqueness invariant of the `categories` table:
no two stored names are equal under lowercasing. -/
def cat_invariant (db : DBState) : Prop :=
  db.categories.Pairwise (fun a b => pyLower a ≠ pyLower b)

/-- Whitespace collapse of `_clean_text` (summarizer.py line 57):
`re.sub(r"\s+", " ", ...)` — every maximal whitespace run becomes one
space. The flag records whether the previous character was whitespace. -/
def collapse_ws : Bool → List Char → List Char
  | _, [] => []
  | prevWs, c :: cs =>
    if pyIsSpace c then
      if prevWs then collapse_ws true cs
      else ' ' :: collapse_ws true cs
    else c :: collapse_ws false cs

/-- Does the line open with one of the forwarding markers of the multiline
substitution in `_clean_text` (summarizer.py line 60)? -/
def forward_marker_line (l : String) : Bool :=
  pyStartsWith l "Forwarded from" || pyStartsWith l "Переслано от"
    || pyStartsWith l "Пересылка от"

/-- The multiline substitution `re.sub(r"^(markers).*?\n", "", ...)`
deletes every newline-terminated line that opens with a marker (the lazy
`.*?\n` consumes exactly that line and its newline; a final line without a
newline never matches). The input is given split on newlines, with only
the last fragment not newline-terminated. -/
def remove_marked : List String → List String
  | [] => []
  | [last] => [last]
  | l :: ls => if forward_marker_line l then remove_marked ls
               else l :: remove_marked ls

/-- The forwarding-marker removal of `_clean_text` (summarizer.py line 60). -/
def remove_forward_markers (s : String) : String :=
  join_lines (remove_marked (pySplitLines s))

/-- Replacement for one maximal run of `n` copies of `c`, per the three
punctuation substitutions of `_clean_text` (summarizer.py lines 63-65):
three or more dots become `...`, two or more `!` or `?` become one. -/
def flush_run (c : Char) (n : Nat) : List Char :=
  if c == '.' && 3 ≤ n then ['.', '.', '.']
  else if (c == '!' || c == '?') && 2 ≤ n then [c]
  else List.replicate n c

/-- Maximal-run scan applying `flush_run`; `c` is the character of the run
being read and `n` its length so far. The three `re.sub` calls in the
source act on disjoint character classes and their replacements create no
new runs, so this single pass is equivalent to running them in sequence. -/
def squeeze_runs : Char → Nat → List Char → List Char
  | c, n, [] => flush_run c n
  | c, n, d :: ds =>
    if d == c then squeeze_runs c (n + 1) ds
    else flush_run c n ++ squeeze_runs d 1 ds

/-- Entry point of the punctuation squeeze over a character list. -/
def squeeze_punct : List Char → List Char
  | [] => []
  | c :: cs => squeeze_runs c 1 cs

/-- `_clean_text` (summarizer.py lines 54-67): strip and collapse
whitespace, remove forwarding-marker lines, squeeze repeated punctuation. -/
def clean_text (text : String) : String :=
  let t1 := String.mk (collapse_ws false (pyStrip text).toList)
  let t2 := remove_forward_markers t1
  String.mk (squeeze_punct t2.toList)

/-- The label prefixes `_clean_summary` removes (summarizer.py lines 72-75). -/
def summary_labels : List String :=
  ["Резюме:", "Краткое резюме:", "Основная идея:",
   "Суть:", "В кратце:", "Вкратце:"]

/-- The label-stripping loop of `_clean_summary`: the first matching label
is cut off (with a strip) and the loop breaks. -/
def strip_label : List String → String → String
  | [], s => s
  | p :: ps, s =>
    if pyStartsWith s p then pyStrip (pyDrop s (pyLen p))
    else strip_label ps s

/-- `_clean_summary` (summarizer.py lines 69-86): drop a leading label, and
unquote a fully quoted summary (Python `summary[1:-1]`). -/
def clean_summary (summary : String) : String :=
  let s1 := strip_label summary_labels summary
  if pyStartsWith s1 "\"" && pyEndsWith s1 "\"" then
    pyStrip (String.mk ((s1.toList.drop 1).dropLast))
  else s1

/-- Python `s.rfind(c)`: index of the last occurrence, `none` for Python -1. -/
def pyRfind (s : String) (c : Char) : Option Nat :=
  match s.toList.reverse.findIdx? (fun d => d == c) with
  | none => none
  | some j => some (pyLen s - 1 - j)

/-- Python `s.rsplit(" ", 1)[0]`: everything before the last space, or the
whole string when it has no space. -/
def rsplit_before_last_space (s : String) : String :=
  match pyRfind s ' ' with
  | none => s
  | some i => pyTake s i

/-- `_fallback_summary` (summarizer.py lines 88-105): plain truncation of
the (cleaned) text, taken back to a sentence boundary when the last dot
falls in the second half, else to a word boundary when the last space
does, else a hard cut; the latter two append an ellipsis. -/
def fallback_summary (text : String) (max_length : Nat) : String :=
  if pyLen text ≤ max_length then text
  else
    let truncated := pyTake text max_length
    let sentence_cut : Option Nat :=
      match pyRfind truncated '.' with
      | some i => if max_length / 2 < i then some i else none
      | none => none
    match sentence_cut with
    | some i => pyTake truncated (i + 1)
    | none =>
      let space_cut : Option Nat :=
        match pyRfind truncated ' ' with
        | some i => if max_length / 2 < i then some i else none
        | none => none
      match space_cut with
      | some i => pyTake truncated i ++ "..."
      | none => truncated ++ "..."

/-- The success branch of the summarizer retry wrapper (summarizer.py lines
117-126): strip and clean the response, then shorten a summary over the
length cap to the cap with the partial last word and an ellipsis. -/
def summary_handle (max_length : Nat) (response_text : String) : String :=
  let summary := clean_summary (pyStrip response_text)
  if max_length < pyLen summary then
    rsplit_before_last_space (pyTake summary max_length) ++ "..."
  else summary

/-- `summarize_text` (summarizer.py lines 16-52) over the Gateway oracle:
inputs whose stripped form is shorter than 50 characters (this includes
the Python falsy empty string) are returned stripped with no API attempt;
otherwise the cleaned text is sent through the retry wrapper, whose
exhaustion fallback is the truncation-based `_fallback_summary` of the
cleaned text. Returns the summary and the number of API attempts made. -/
def summarize_text (outcomes : Nat → Attempt) (text : String)
    (max_length : Nat) : String × Nat :=
  if text = "" ∨ pyLen (pyStrip text) < 50 then (pyStrip text, 0)
  else
    let cleaned := clean_text text
    let r := call_claude_with_retry outcomes (summary_handle max_length)
      (fallback_summary cleaned max_length) 3
    (r.1, r.2.1)

/-! Helper lemmas shared by the claim theorems. -/

/-- A run of the retry loop in which every remaining attempt fails returns
the fallback, makes one API attempt per remaining iteration, and sleeps
once per iteration except that the final iteration sleeps only when it was
rate-limited (the other failure kinds break without sleeping there). -/
lemma retry_loop_exhaust {α : Type} (outcomes : Nat → Attempt)
    (handle : String → α) (fb : α) (max_retries : Nat) :
    ∀ k attempt, attempt + k = max_retries →
    (∀ i, attempt ≤ i → i < max_retries → isFail (outcomes i) = true) →
    (retry_loop outcomes handle fb max_retries attempt k).1 = fb ∧
    (retry_loop outcomes handle fb max_retries attempt k).2.1 = k ∧
    (retry_loop outcomes handle fb max_retries attempt k).2.2.length =
      (if 0 < k ∧ outcomes (max_retries - 1) = Attempt.rateLimited then k
       else k - 1) := by
  intro k
  induction k with
  | zero =>
    intro attempt h hf
    simp [retry_loop]
  | succ k ih =>
    intro attempt h hf
    have hattempt : attempt < max_retries := by omega
    have hfa := hf attempt (le_refl _) hattempt
    cases hout : outcomes attempt with
    | ok t => rw [hout] at hfa; simp [isFail] at hfa
    | rateLimited =>
      have hrec := ih (attempt + 1) (by omega)
        (fun i hle hi => hf i (by omega) hi)
      rcases hrec with ⟨h1, h2, h3⟩
      simp only [retry_loop, hout, h1, h2, List.length_cons, h3]
      refine ⟨trivial, trivial, ?_⟩
      rcases Nat.eq_zero_or_pos k with hk | hk
      · subst hk
        have hlast : max_retries - 1 = attempt := by omega
        rw [hlast, hout]
        simp
      · by_cases hrl : outcomes (max_retries - 1) = Attempt.rateLimited
        · simp [hrl, hk]
        · simp [hrl, hk]
          omega
    | apiError =>
      rcases Nat.eq_zero_or_pos k with hk | hk
      · subst hk
        have hnot : ¬ attempt < max_retries - 1 := by omega
        have hlast : max_retries - 1 = attempt := by omega
        simp only [retry_loop, hout, if_neg hnot]
        refine ⟨trivial, trivial, ?_⟩
        rw [hlast, hout]
        simp
      · have hlt : attempt < max_retries - 1 := by omega
        have hrec := ih (attempt + 1) (by omega)
          (fun i hle hi => hf i (by omega) hi)
        rcases hrec with ⟨h1, h2, h3⟩
        simp only [retry_loop, hout, if_pos hlt, h1, h2, List.length_cons, h3]
        refine ⟨trivial, trivial, ?_⟩
        by_cases hrl : outcomes (max_retries - 1) = Attempt.rateLimited
        · simp [hrl, hk]
        · simp [hrl, hk]
          omega
    | otherError =>
      rcases Nat.eq_zero_or_pos k with hk | hk
      · subst hk
        have hnot : ¬ attempt < max_retries - 1 := by omega
        have hlast : max_retries - 1 = attempt := by omega
        simp only [retry_loop, hout, if_neg hnot]
        refine ⟨trivial, trivial, ?_⟩
        rw [hlast, hout]
        simp
      · have hlt : attempt < max_retries - 1 := by omega
        have hrec := ih (attempt + 1) (by omega)
          (fun i hle hi => hf i (by omega) hi)
        rcases hrec with ⟨h1, h2, h3⟩
        simp only [retry_loop, hout, if_pos hlt, h1, h2, List.length_cons, h3]
        refine ⟨trivial, trivial, ?_⟩
        by_cases hrl : outcomes (max_retries - 1) = Attempt.rateLimited
        · simp [hrl, hk]
        · simp [hrl, hk]
          omega

/-- A retry run whose first attempt succeeds applies the handler to that
response, makes one API attempt and never sleeps. -/
lemma retry_first_ok {α : Type} (outcomes : Nat → Attempt)
    (handle : String → α) (fb : α) (max_retries attempt fuel : Nat)
    (t : String) (h : outcomes attempt = Attempt.ok t) :
    retry_loop outcomes handle fb max_retries attempt (fuel + 1) =
      (handle t, 1, []) := by
  simp [retry_loop, h]

/-- A satisfied `List.find?` splits the list at the first satisfying
element: everything before it fails the predicate. -/
lemma find_first_split {α : Type} (p : α → Bool) (l : List α)
    (h : ∃ x ∈ l, p x = true) :
    ∃ pre x post, l = pre ++ x :: post ∧ p x = true ∧
      (∀ d ∈ pre, p d = false) ∧ l.find? p = some x := by
  induction l with
  | nil => simp at h
  | cons a as ih =>
    by_cases hp : p a = true
    · exact ⟨[], a, as, by simp, hp, by simp,
        by simp [List.find?_cons_of_pos _ hp]⟩
    · have hp' : p a = false := by simpa using hp
      obtain ⟨x, hx, hpx⟩ := h
      rcases List.mem_cons.mp hx with hxa | hxas
      · subst hxa; exact absurd hpx hp
      · obtain ⟨pre, y, post, hsplit, hpy, hpre, hfind⟩ := ih ⟨x, hxas, hpx⟩
        refine ⟨a :: pre, y, post, by simp [hsplit], hpy, ?_, ?_⟩
        · intro d hd
          rcases List.mem_cons.mp hd with hda | hdp
          · subst hda; exact hp'
          · exact hpre d hdp
        · rw [List.find?_cons_of_neg _ (by simp [hp'])]
          exact hfind

/-- `add_category` never touches the `messages` table. -/
lemma add_category_fst_messages (db : DBState) (c : String) :
    ((add_category db c).1).messages = db.messages := by
  unfold add_category
  split
  · rfl
  · split <;> rfl

/-- `add_category` never touches the serial counter. -/
lemma add_category_fst_nextId (db : DBState) (c : String) :
    ((add_category db c).1).nextId = db.nextId := by
  unfold add_category
  split
  · rfl
  · split <;> rfl

/-- A filter for a lowercase value attained by no element is empty. -/
lemma filter_lower_nil (l : List String) (x : String)
    (h : ∀ d ∈ l, ¬ pyLower d = x) :
    l.filter (fun d => pyLower d == x) = [] := by
  rw [List.filter_eq_nil_iff]
  intro d hd
  simpa using h d hd

/-- In a list whose lowercased elements are pairwise distinct, a filter for
an attained lowercase value keeps exactly one element. -/
lemma filter_lower_one (l : List String) (x : String)
    (hp : l.Pairwise (fun a b => pyLower a ≠ pyLower b))
    (hx : ∃ d ∈ l, pyLower d = x) :
    (l.filter (fun d => pyLower d == x)).length = 1 := by
  induction l with
  | nil => simp at hx
  | cons a as ih =>
    rw [List.pairwise_cons] at hp
    by_cases ha : pyLower a = x
    · have hrest : ∀ d ∈ as, ¬ pyLower d = x := by
        intro d hd hdx
        exact hp.1 d hd (ha.trans hdx.symm)
      have hfa : (pyLower a == x) = true := by simpa using ha
      simp [List.filter_cons, hfa, filter_lower_nil as x hrest]
    · obtain ⟨d, hd, hdx⟩ := hx
      rcases List.mem_cons.mp hd with hda | hdas
      · subst hda; exact absurd hdx ha
      · have hfa : (pyLower a == x) = false := by simpa using ha
        simp only [List.filter_cons, hfa, Bool.false_eq_true, if_false]
        exact ih hp.2 ⟨d, hdas, hdx⟩

/-- Existence in the categories table is attainment of the lowercase form. -/
lemma category_exists_iff (db : DBState) (c : String) :
    category_exists db c = true ↔
      ∃ d ∈ db.categories, pyLower d = pyLower c := by
  unfold category_exists
  rw [List.any_eq_true]
  constructor
  · rintro ⟨d, hd, hdx⟩
    exact ⟨d, hd, by simpa using hdx⟩
  · rintro ⟨d, hd, hdx⟩
    exact ⟨d, hd, by simpa using hdx⟩

/-- Inserting an existing category is a no-op returning false. -/
lemma add_category_of_exists (db : DBState) (c : String)
    (h : category_exists db c = true) :
    add_category db c = (db, false) := by
  unfold add_category
  rw [if_pos h]

/-- Inserting a genuinely new category appends it and returns true. -/
lemma add_category_of_not (db : DBState) (c : String)
    (h : category_exists db c = false) :
    add_category db c =
      ({ db with categories := db.categories ++ [c] }, true) := by
  have h2 : db.categories.any (fun e => pyLower e == pyLower c) = false := h
  unfold add_category
  rw [h, h2]
  simp

/-! Claim theorems. -/

/-- C2 counterexample: a store containing the empty-string category (which
the `name TEXT` schema admits, and which matches every text as first
alphabetical entry). The simple match finds it, but the falsy guard
`if category_match:` (classifier.py line 27) sends the program to the LLM
path instead: the final result comes from two Gateway attempts, not from
the simple match with confidence 1 and zero attempts. -/
theorem classify_empty_match_counterexample :
    simple_category_match "hello" [""] = some "" ∧
    classify_message [""]
      (fun _ => Attempt.ok "Категория: greetings
Уверенность: 0.9")
      (fun _ => Attempt.ok "greetings") "hello"
      = ("greetings", mkRat 9 10, 2) ∧
    (("greetings", mkRat 9 10, 2) : String × ℚ × Nat) ≠ ("", 1, 0) := by
  decide

/-- C2 amended: when some stored category's lowercase form occurs as a
substring of the lowercased input text, and the first such category in the
order the store lists them (the store sorts alphabetically) is non-empty,
Classify returns that first category with confidence exactly 1 and makes
zero LLM Gateway attempts; a first match that is the empty string is falsy
in Python and falls through to the LLM path instead. -/
theorem classify_simple_match_first (cats : List String)
    (cls dup : Nat → Attempt) (text : String)
    (h : ∃ c ∈ cats, pySubstr (pyLower c) (pyLower text) = true) :
    ∃ pre c post, cats = pre ++ c :: post ∧
      pySubstr (pyLower c) (pyLower text) = true ∧
      (∀ d ∈ pre, pySubstr (pyLower d) (pyLower text) = false) ∧
      (c ≠ "" → classify_message cats cls dup text = (c, 1, 0)) := by
  obtain ⟨pre, c, post, hsplit, hpc, hpre, hfind⟩ :=
    find_first_split (fun category => pySubstr (pyLower category) (pyLower text))
      cats h
  refine ⟨pre, c, post, hsplit, hpc, hpre, ?_⟩
  intro hne
  unfold classify_message simple_category_match
  simp [hfind, hne]

/-- Witness for C2: the spec's example scenario, with the store listing
alphabetically and a Gateway oracle that would always fail, so any Gateway
attempt would be visible in the result. -/
theorem classify_simple_match_first_witness :
    (∃ c ∈ ["news", "technology"],
        pySubstr (pyLower c) (pyLower "New iPhone technology breakthrough")
          = true) ∧
    (∃ pre c post, (["news", "technology"] : List String) = pre ++ c :: post ∧
      pySubstr (pyLower c) (pyLower "New iPhone technology breakthrough")
        = true ∧
      (∀ d ∈ pre,
        pySubstr (pyLower d) (pyLower "New iPhone technology breakthrough")
          = false) ∧
      (c ≠ "" →
        classify_message ["news", "technology"] (fun _ => Attempt.rateLimited)
          (fun _ => Attempt.rateLimited) "New iPhone technology breakthrough"
          = (c, 1, 0))) :=
  ⟨by decide, classify_simple_match_first ["news", "technology"]
    (fun _ => Attempt.rateLimited) (fun _ => Attempt.rateLimited)
    "New iPhone technology breakthrough" (by decide)⟩

/-- C3: a RecordMessage call whose transport link or summary is already
stored returns no identifier and inserts no message row. The no-save
outcome is the `none` value of the ordinary result, distinct from a raised
storage failure (modelled separately by `save_message_committed`). -/
theorem save_message_dedup (db : DBState) (su : Option String)
    (link summ cat : String)
    (hdup : ∃ m ∈ db.messages, m.telegram_link = link ∨ m.summary = summ) :
    (save_message db su link summ cat).2 = none ∧
    ((save_message db su link summ cat).1).messages = db.messages := by
  have hmsgs := add_category_fst_messages db cat
  have hex : message_exists (add_category db cat).1 link summ = true := by
    unfold message_exists
    rw [hmsgs, List.any_eq_true]
    obtain ⟨m, hm, hor⟩ := hdup
    refine ⟨m, hm, ?_⟩
    rcases hor with h | h <;> simp [h]
  unfold save_message
  simp [hex, hmsgs]

/-- Witness for C3: a second call with a fresh link but an already-stored
summary returns no id and leaves the messages table unchanged. -/
theorem save_message_dedup_witness :
    (∃ m ∈ (DBState.mk ["news"] [⟨1, none, "L1", "S1", "news"⟩] 2).messages,
        m.telegram_link = "L2" ∨ m.summary = "S1") ∧
    ((save_message (DBState.mk ["news"] [⟨1, none, "L1", "S1", "news"⟩] 2)
        none "L2" "S1" "news").2 = none ∧
      ((save_message (DBState.mk ["news"] [⟨1, none, "L1", "S1", "news"⟩] 2)
        none "L2" "S1" "news").1).messages
        = (DBState.mk ["news"] [⟨1, none, "L1", "S1", "news"⟩] 2).messages) :=
  ⟨by decide, save_message_dedup
    (DBState.mk ["news"] [⟨1, none, "L1", "S1", "news"⟩] 2)
    none "L2" "S1" "news" (by decide)⟩

/-- C4: category insertion is idempotent up to case. With the
case-insensitive uniqueness invariant holding, inserting `c` preserves the
invariant and results in exactly one stored row whose lowercase form is
that of `c`, and a second insert of any case variant of `c` is a no-op
returning false rather than an error. -/
theorem add_category_idempotent (db : DBState) (c c' : String)
    (hinv : cat_invariant db) (hcc : pyLower c' = pyLower c) :
    cat_invariant (add_category db c).1 ∧
    add_category (add_category db c).1 c' = ((add_category db c).1, false) ∧
    (((add_category db c).1).categories.filter
        (fun d => pyLower d == pyLower c)).length = 1 := by
  by_cases hex : category_exists db c = true
  · rw [add_category_of_exists db c hex]
    obtain ⟨d, hd, hdx⟩ := (category_exists_iff db c).mp hex
    refine ⟨hinv, ?_, ?_⟩
    · apply add_category_of_exists
      rw [category_exists_iff]
      exact ⟨d, hd, hdx.trans hcc.symm⟩
    · exact filter_lower_one _ _ hinv ⟨d, hd, hdx⟩
  · have hex' : category_exists db c = false := by simpa using hex
    rw [add_category_of_not db c hex']
    have hnone : ∀ d ∈ db.categories, ¬ pyLower d = pyLower c := by
      intro d hd hdx
      exact hex ((category_exists_iff db c).mpr ⟨d, hd, hdx⟩)
    refine ⟨?_, ?_, ?_⟩
    · show (db.categories ++ [c]).Pairwise (fun a b => pyLower a ≠ pyLower b)
      rw [List.pairwise_append]
      refine ⟨hinv, by simp, ?_⟩
      intro a ha b hb
      rw [List.mem_singleton] at hb
      subst hb
      exact fun h => hnone a ha h
    · apply add_category_of_exists
      rw [category_exists_iff]
      exact ⟨c, by simp, hcc.symm⟩
    · rw [List.filter_append, filter_lower_nil _ _ hnone]
      simp

/-- Witness for C4: inserting "Tech" into a store holding only "news",
then inserting the case variant "TECH". -/
theorem add_category_idempotent_witness :
    cat_invariant (DBState.mk ["news"] [] 1) ∧
    pyLower "TECH" = pyLower "Tech" ∧
    (cat_invariant (add_category (DBState.mk ["news"] [] 1) "Tech").1 ∧
      add_category (add_category (DBState.mk ["news"] [] 1) "Tech").1 "TECH"
        = ((add_category (DBState.mk ["news"] [] 1) "Tech").1, false) ∧
      (((add_category (DBState.mk ["news"] [] 1) "Tech").1).categories.filter
          (fun d => pyLower d == pyLower "Tech")).length = 1) :=
  ⟨by simp [cat_invariant], by decide,
    add_category_idempotent (DBState.mk ["news"] [] 1) "Tech" "TECH"
      (by simp [cat_invariant]) (by decide)⟩

/-- C1 counterexample: candidate "tech", existing list ["technology"], a
duplicate-check Gateway failing every attempt: the final category is the
non-classification fallback "general", not the unchanged candidate. -/
theorem dup_exhausted_counterexample :
    (check_duplicate_category "tech" ["technology"]
        (fun _ => Attempt.apiError)).1 = "general" ∧
    ("general" : String) ≠ "tech" := by decide

/-- C1 amended: for every candidate and non-empty existing list, when all
retries of the duplicate-check Gateway call fail, the final category is the
string "general" (the fallback classifier.py line 209 returns for
non-classification operations), not the candidate. -/
theorem dup_exhausted_general (new_category : String) (existing : List String)
    (dup : Nat → Attempt) (hne : existing ≠ [])
    (hfail : ∀ i, i < 3 → isFail (dup i) = true) :
    (check_duplicate_category new_category existing dup).1 = "general" := by
  unfold check_duplicate_category
  have hempty : existing.isEmpty = false := by
    cases existing with
    | nil => exact absurd rfl hne
    | cons a as => rfl
  rw [hempty]
  simp only [Bool.false_eq_true, if_false]
  have h := retry_loop_exhaust dup
    (parse_duplicate_response existing new_category) "general" 3 3 0 rfl
    (fun i _ hi => hfail i hi)
  unfold call_claude_with_retry at h ⊢
  exact h.1

/-- Witness for C1 at a concrete candidate and failure pattern. -/
theorem dup_exhausted_general_witness :
    (["technology"] : List String) ≠ [] ∧
    (check_duplicate_category "ai_research" ["technology"]
        (fun _ => Attempt.otherError)).1 = "general" :=
  ⟨by decide, dup_exhausted_general "ai_research" ["technology"]
    (fun _ => Attempt.otherError) (by decide) (fun i _ => rfl)⟩

/-- C5 counterexample: a parsed confidence of 0.3 rewrites the category to
"review" inside the wrapper, but the duplicate-resolution step then
replaces it with the existing category the duplicate-check oracle named,
so Classify's final category is not "review". -/
theorem low_confidence_counterexample :
    (parse_claude_response "Категория: uncertain\nУверенность: 0.3").2
        < mkRat 1 2 ∧
    classify_message ["technology"]
      (fun _ => Attempt.ok "Категория: uncertain\nУверенность: 0.3")
      (fun _ => Attempt.ok "technology") "hello"
      = ("technology", mkRat 3 10, 2) ∧
    ("technology" : String) ≠ "review" := by decide

/-- C5 amended: the Gateway-calling wrapper rewrites any parsed result with
confidence below 0.5 to category "review" carrying the original unmodified
confidence, and Classify's final result keeps that confidence; the final
category, however, is "review" only as far as the duplicate-resolution
step keeps it. -/
theorem low_confidence_review (existing : List String)
    (cls dup : Nat → Attempt) (text resp : String)
    (hns : simple_category_match text existing = none)
    (h0 : cls 0 = Attempt.ok resp)
    (hconf : (parse_claude_response resp).2 < mkRat 1 2) :
    classification_handle resp = ("review", (parse_claude_response resp).2) ∧
    (classify_message existing cls dup text).2.1
      = (parse_claude_response resp).2 := by
  have hhandle : classification_handle resp
      = ("review", (parse_claude_response resp).2) := by
    unfold classification_handle
    rw [if_pos hconf]
  refine ⟨hhandle, ?_⟩
  have hcall : call_claude_with_retry cls classification_handle
      ("general", mkRat 1 2) 3 = (classification_handle resp, 1, []) := by
    unfold call_claude_with_retry
    exact retry_first_ok cls classification_handle ("general", mkRat 1 2)
      3 0 2 resp h0
  unfold classify_message classify_with_llm
  simp only [hns, hcall, hhandle]
  split
  · rfl
  · rfl

/-- Witness for C5 at the concrete low-confidence response. -/
theorem low_confidence_review_witness :
    simple_category_match "hello" ["technology"] = none ∧
    (parse_claude_response "Категория: uncertain\nУверенность: 0.3").2
      < mkRat 1 2 ∧
    (classification_handle "Категория: uncertain\nУверенность: 0.3"
      = ("review",
        (parse_claude_response "Категория: uncertain\nУверенность: 0.3").2) ∧
    (classify_message ["technology"]
        (fun _ => Attempt.ok "Категория: uncertain\nУверенность: 0.3")
        (fun _ => Attempt.ok "technology") "hello").2.1
      = (parse_claude_response "Категория: uncertain\nУверенность: 0.3").2) :=
  ⟨by decide, by decide, low_confidence_review ["technology"]
    (fun _ => Attempt.ok "Категория: uncertain\nУверенность: 0.3")
    (fun _ => Attempt.ok "technology") "hello"
    "Категория: uncertain\nУверенность: 0.3" (by decide) rfl (by decide)⟩

/-- C6 counterexample: a call rate-limited on every one of its 3 attempts
sleeps 3 times, not max_retries - 1 = 2, because the rate-limit handler
sleeps unconditionally, including on the final attempt. -/
theorem retry_sleep_counterexample :
    ((call_claude_with_retry (fun _ => Attempt.rateLimited)
        classification_handle ("general", mkRat 1 2) 3).2.2).length = 3 ∧
    (3 : Nat) ≠ 3 - 1 := by decide

/-- C6 amended: a Gateway call failing on every attempt is attempted exactly
max_retries times and returns the fallback; it sleeps max_retries - 1 times
when the final failing attempt is not rate-limited, but max_retries times
when it is (the rate-limit branch sleeps before the bound check; the other
failure branches skip the sleep on the final attempt). -/
theorem retry_exhaust_counts {α : Type} (outcomes : Nat → Attempt)
    (handle : String → α) (fb : α) (max_retries : Nat)
    (hpos : 0 < max_retries)
    (hfail : ∀ i, i < max_retries → isFail (outcomes i) = true) :
    (call_claude_with_retry outcomes handle fb max_retries).1 = fb ∧
    (call_claude_with_retry outcomes handle fb max_retries).2.1
      = max_retries ∧
    (call_claude_with_retry outcomes handle fb max_retries).2.2.length =
      (if outcomes (max_retries - 1) = Attempt.rateLimited then max_retries
       else max_retries - 1) := by
  have h := retry_loop_exhaust outcomes handle fb max_retries max_retries 0
    (by omega) (fun i _ hi => hfail i hi)
  unfold call_claude_with_retry
  refine ⟨h.1, h.2.1, ?_⟩
  rw [h.2.2]
  by_cases hrl : outcomes (max_retries - 1) = Attempt.rateLimited
  · simp [hrl, hpos]
  · simp [hrl]

/-- Witness for C6: two rate-limited attempts followed by an API error, on
the duplicate-check handler. -/
theorem retry_exhaust_counts_witness :
    (0 : Nat) < 3 ∧
    ((call_claude_with_retry
        (fun i => if i = 2 then Attempt.apiError else Attempt.rateLimited)
        (parse_duplicate_response ["technology"] "tech") "general" 3).1
      = "general" ∧
    (call_claude_with_retry
        (fun i => if i = 2 then Attempt.apiError else Attempt.rateLimited)
        (parse_duplicate_response ["technology"] "tech") "general" 3).2.1
      = 3 ∧
    (call_claude_with_retry
        (fun i => if i = 2 then Attempt.apiError else Attempt.rateLimited)
        (parse_duplicate_response ["technology"] "tech") "general"
        3).2.2.length =
      (if (fun i => if i = 2 then Attempt.apiError else Attempt.rateLimited)
          (3 - 1) = Attempt.rateLimited then 3 else 3 - 1)) :=
  ⟨by decide, retry_exhaust_counts
    (fun i => if i = 2 then Attempt.apiError else Attempt.rateLimited)
    (parse_duplicate_response ["technology"] "tech") "general" 3 (by decide)
    (fun i _ => by by_cases h : i = 2 <;> simp [h, isFail])⟩

/-- C7 counterexample: existing ["technology"], candidate "tech", model
answer "TECHNOLOGY": the final category is the model's answer in the
model's own casing, not the stored casing "technology" (and not the
candidate). -/
theorem dup_casing_counterexample :
    (check_duplicate_category "tech" ["technology"]
        (fun _ => Attempt.ok "TECHNOLOGY")).1 = "TECHNOLOGY" ∧
    ("TECHNOLOGY" : String) ≠ "technology" := by decide

/-- C7 amended: when the duplicate-check response arrives, the final
category is the model's stripped answer verbatim whenever that answer
case-insensitively matches an existing category (hence in the model's
casing, which need not be the stored casing), and the unchanged candidate
otherwise. -/
theorem dup_answer_verbatim (new_category : String) (existing : List String)
    (dup : Nat → Attempt) (resp : String) (hne : existing ≠ [])
    (h0 : dup 0 = Attempt.ok resp) :
    (check_duplicate_category new_category existing dup).1 =
      (if (existing.map pyLower).contains (pyLower (pyStrip resp)) then
        pyStrip resp
      else new_category) := by
  unfold check_duplicate_category
  have hempty : existing.isEmpty = false := by
    cases existing with
    | nil => exact absurd rfl hne
    | cons a as => rfl
  rw [hempty]
  simp only [Bool.false_eq_true, if_false]
  have hcall : call_claude_with_retry dup
      (parse_duplicate_response existing new_category) "general" 3
      = (parse_duplicate_response existing new_category resp, 1, []) := by
    unfold call_claude_with_retry
    exact retry_first_ok dup (parse_duplicate_response existing new_category)
      "general" 3 0 2 resp h0
  simp only [hcall]
  unfold parse_duplicate_response
  rfl

/-- Witness for C7: candidate "cooking", stored ["news", "technology"],
model answer " News " in its own casing. -/
theorem dup_answer_verbatim_witness :
    (["news", "technology"] : List String) ≠ [] ∧
    (check_duplicate_category "cooking" ["news", "technology"]
        (fun _ => Attempt.ok " News ")).1 =
      (if ((["news", "technology"] : List String).map pyLower).contains
          (pyLower (pyStrip " News ")) then
        pyStrip " News "
      else "cooking") :=
  ⟨by decide, dup_answer_verbatim "cooking" ["news", "technology"]
    (fun _ => Attempt.ok " News ") " News " (by decide) rfl⟩

/-- C8 counterexample: the parser recognizes the Russian labels only, so the
English-labelled response text of the claim parses to the defaults
("general", 0.5), not to ("ai_research", 0.85). -/
theorem parse_labels_counterexample :
    parse_claude_response "Category: ai_research\nConfidence: 0.85"
      = ("general", mkRat 1 2) ∧
    ("general", mkRat 1 2) ≠ (("ai_research", mkRat 17 20) : String × ℚ) := by
  decide

/-- C8 amended: the scenario holds with the labels the parser actually
recognizes. The response "Категория: ai_research\nУверенность: 0.85"
parses to ("ai_research", 0.85); with existing categories
["news", "technology"] and an input with no simple match, the
duplicate-check is invoked (two API attempts in total), and when it returns
"ai_research" unchanged the final result is ("ai_research", 0.85). -/
theorem classify_example_scenario :
    parse_claude_response "Категория: ai_research\nУверенность: 0.85"
      = ("ai_research", mkRat 17 20) ∧
    classify_message ["news", "technology"]
      (fun _ => Attempt.ok "Категория: ai_research\nУверенность: 0.85")
      (fun _ => Attempt.ok "ai_research") "Some unrelated input"
      = ("ai_research", mkRat 17 20, 2) := by decide

/-- C9 counterexample: a storage failure during the final message insert of
a call that introduced a new category leaves the persistent store changed
(the category insert had already committed), contradicting "the store is
left unchanged by the failed call". -/
theorem storage_failure_counterexample :
    save_message_committed (DBState.mk [] [] 1) "tech" SaveStep.messageInsert
      ≠ DBState.mk [] [] 1 := by decide

/-- C9 amended: whatever step a StorageUnavailable strikes at, the messages
table is unchanged by the failed call — the message insert commits only at
the final step — though the categories table may already hold a newly
committed category. -/
theorem storage_failure_messages_unchanged (db : DBState) (category : String)
    (st : SaveStep) :
    (save_message_committed db category st).messages = db.messages := by
  cases st with
  | categoryInsert => rfl
  | dupCheck => exact add_category_fst_messages db category
  | messageInsert => exact add_category_fst_messages db category

/-- C10: an input whose stripped form is shorter than 50 characters (the
empty string included) is returned stripped, with no Gateway attempt,
whatever the length cap. -/
theorem summarize_short_bypass (outcomes : Nat → Attempt) (text : String)
    (max_length : Nat) (h : pyLen (pyStrip text) < 50) :
    summarize_text outcomes text max_length = (pyStrip text, 0) := by
  unfold summarize_text
  rw [if_pos (Or.inr h)]

/-- Witness for C10 at a concrete short input. -/
theorem summarize_short_bypass_witness :
    pyLen (pyStrip "  short text  ") < 50 ∧
    summarize_text (fun _ => Attempt.ok "ответ") "  short text  " 200
      = (pyStrip "  short text  ", 0) :=
  ⟨by decide, summarize_short_bypass (fun _ => Attempt.ok "ответ")
    "  short text  " 200 (by decide)⟩

end ForwardBot
